import Mathlib

/-
Verification of the solarsky-cotizacion quoting service.

The JavaScript sources (src/server.js and the variants in src/unnamed/)
are shallowly embedded below:

* a JavaScript float is modeled as an exact rational number (ℚ); NaN is
  modeled as `none` in `JsNum := Option ℚ`.  The infinities never arise
  on the code paths modeled here (every division the source performs is
  either guarded or has a provably nonzero denominator on the evaluated
  inputs); a division by zero is mapped to `none`, which agrees with JS
  on every NaN-style comparison (`x < c`, `isFinite x`) the source makes.
* a JS object holding string fields is modeled as an association list
  `StrMap := List (String × String)` with first-occurrence lookup.
* `Number(s)` on the strings produced by the stripping regex
  /[^0-9.-]/g is modeled by `jsParseNum`; `toLocaleString("es-CO")` by
  `toLocaleCO` (thousands separator ".", decimal comma, at most three
  fraction digits, half-away-from-zero rounding, grouping applied from
  five integer digits on, per CLDR Spanish data); `toFixed(d)` by
  `toFixedStr`.
-/

set_option autoImplicit false
set_option maxRecDepth 100000

namespace SolarSky

/-! ### JS numbers -/

/-- A JavaScript number: `none` models NaN (and the unreachable infinite
results), `some q` models the finite value `q`. -/
abbrev JsNum := Option ℚ

def jsAdd : JsNum → JsNum → JsNum
  | none, _ => none
  | some _, none => none
  | some a, some b => some (a + b)

def jsSub : JsNum → JsNum → JsNum
  | none, _ => none
  | some _, none => none
  | some a, some b => some (a - b)

def jsMul : JsNum → JsNum → JsNum
  | none, _ => none
  | some _, none => none
  | some a, some b => some (a * b)

/-- JS division; a zero denominator gives an infinity in JS, which the
source only ever feeds into NaN-style checks, so it is mapped to `none`. -/
def jsDiv : JsNum → JsNum → JsNum
  | none, _ => none
  | some _, none => none
  | some a, some b => if b = 0 then none else some (a / b)

def jsNeg : JsNum → JsNum
  | none => none
  | some a => some (-a)

/-- The comparison `Math.abs x < c`: false when `x` is NaN, as in JS. -/
def jsAbsLt (x : JsNum) (c : ℚ) : Bool :=
  match x with
  | none => false
  | some q => decide (|q| < c)

/-- The comparison `x < 0`: false when `x` is NaN, as in JS. -/
def jsLtZero (x : JsNum) : Bool :=
  match x with
  | none => false
  | some q => decide (q < 0)

/-- The comparison `x > 0`: false when `x` is NaN, as in JS. -/
def jsGtZero (x : JsNum) : Bool :=
  match x with
  | none => false
  | some q => decide (0 < q)

/-- The comparison `x >= 0`: false when `x` is NaN, as in JS. -/
def jsGeZero (x : JsNum) : Bool :=
  match x with
  | none => false
  | some q => decide (0 ≤ q)

/-- JS `Math.round`: round half toward positive infinity. -/
def jsRound (q : ℚ) : ℤ := ⌊q + 1 / 2⌋

/-- JS `Math.ceil`. -/
def jsCeil (q : ℚ) : ℤ := ⌈q⌉

/-! ### Numeric parsing: the stripping regex and the JS `Number()` parse -/

/-- The character class kept by the source regex replace(/[^0-9.-]/g, ""). -/
def isKeptChar (c : Char) : Bool := c.isDigit || c == '.' || c == '-'

/-- Deletes every character other than digits, dot and minus, as in
String(v).replace(/[^0-9.-]/g, ""). -/
def jsStrip (s : String) : String := String.mk (s.data.filter isKeptChar)

/-- Reads a digit string as a natural number; fails on any non-digit. -/
def digitsValAux : List Char → ℕ → Option ℕ
  | [], acc => some acc
  | c :: cs, acc =>
    if c.isDigit then digitsValAux cs (acc * 10 + (c.toNat - '0'.toNat)) else none

/-- Splits a character list at its first dot, if any. -/
def splitDot : List Char → List Char × Option (List Char)
  | [] => ([], none)
  | c :: rest =>
    if c = '.' then ([], some rest)
    else
      let p := splitDot rest
      (c :: p.1, p.2)

/-- JS `Number(s)` on the strings this code feeds it (no whitespace, no
exponent or hex forms survive the stripping regex): the empty string is 0,
an optional leading minus followed by `D+`, `D+.D*` or `.D+` is a decimal
literal, anything else is NaN. -/
def jsParseNum (s : String) : JsNum :=
  match s.data with
  | [] => some 0
  | cs =>
    let sgn : ℚ := match cs with
      | '-' :: _ => -1
      | _ => 1
    let body : List Char := match cs with
      | '-' :: rest => rest
      | _ => cs
    match splitDot body with
    | (ip, none) =>
      match ip, digitsValAux ip 0 with
      | [], _ => none
      | _ :: _, some n => some (sgn * n)
      | _ :: _, none => none
    | (ip, some fp) =>
      if fp.contains '.' then none
      else
        match digitsValAux ip 0, digitsValAux fp 0 with
        | some i, some f =>
          if ip.isEmpty && fp.isEmpty then none
          else some (sgn * ((i : ℚ) + (f : ℚ) / (10 : ℚ) ^ fp.length))
        | _, _ => none

/-! ### Number rendering -/

def natStr (n : ℕ) : String := Nat.repr n

/-- JS `String(n)` for an integer value. -/
def intStr : ℤ → String
  | .ofNat n => natStr n
  | .negSucc n => "-" ++ natStr (n + 1)

def padLeftZeros (s : String) (d : ℕ) : String :=
  String.mk (List.replicate (d - s.length) '0') ++ s

def trimRightZeros (s : String) : String :=
  String.mk ((s.data.reverse.dropWhile (· == '0')).reverse)

/-- JS `x.toFixed(d)`: rounds half toward positive infinity and always
prints exactly `d` fraction digits. -/
def toFixedStr (q : ℚ) (d : ℕ) : String :=
  let scaled : ℤ := jsRound (q * (10 : ℚ) ^ d)
  if d = 0 then intStr scaled
  else
    let sign := if scaled < 0 then "-" else ""
    let a := scaled.natAbs
    sign ++ natStr (a / 10 ^ d) ++ "." ++ padLeftZeros (natStr (a % 10 ^ d)) d

/-- Least exponent k ≤ fuel + start with q·10^k integral, searching upward. -/
def decExpGo (q : ℚ) (k : ℕ) : ℕ → Option ℕ
  | 0 => if (q * (10 : ℚ) ^ k).den = 1 then some k else none
  | fuel + 1 =>
    if (q * (10 : ℚ) ^ k).den = 1 then some k else decExpGo q (k + 1) fuel

def decExp (q : ℚ) : Option ℕ := decExpGo q 0 64

/-- JS `String(x)` / `x.toString()` for the finite values this code prints:
all of them have a finite decimal expansion, printed with no trailing
fraction zeros.  Values without a short decimal expansion never reach this
function; a fraction form is returned for totality. -/
def qToString (q : ℚ) : String :=
  match decExp q with
  | some k =>
    let scaled : ℤ := (q * (10 : ℚ) ^ k).num
    if k = 0 then intStr scaled
    else
      let sign := if scaled < 0 then "-" else ""
      let a := scaled.natAbs
      sign ++ natStr (a / 10 ^ k) ++ "." ++ padLeftZeros (natStr (a % 10 ^ k)) k
  | none => intStr q.num ++ "/" ++ natStr q.den

/-- Groups a reversed digit list in threes with a dot separator. -/
def group3Rev : List Char → List Char
  | a :: b :: c :: rest@(_ :: _) => a :: b :: c :: '.' :: group3Rev rest
  | l => l

/-- Integer-part grouping of toLocaleString("es-CO"): dots every three
digits, applied only from five integer digits on (CLDR Spanish uses
minimumGroupingDigits = 2). -/
def groupIntCO (n : ℕ) : String :=
  let ds := (natStr n).data
  if ds.length ≤ 4 then String.mk ds
  else String.mk ((group3Rev ds.reverse).reverse)

/-- JS `x.toLocaleString("es-CO")` with default options: at most three
fraction digits (half away from zero), decimal comma, grouped integer part. -/
def toLocaleCO (q : ℚ) : String :=
  let scaled : ℤ := if q < 0 then -jsRound (-q * 1000) else jsRound (q * 1000)
  let a := scaled.natAbs
  let sign := if scaled < 0 then "-" else ""
  let ipart := groupIntCO (a / 1000)
  let f := a % 1000
  if f = 0 then sign ++ ipart
  else sign ++ ipart ++ "," ++ trimRightZeros (padLeftZeros (natStr f) 3)

/-! ### JS values and the shared numeric parse `toNum` / `num` -/

/-- A JS value as it flows through computeFields: missing (undefined or
null), a string, or a number. -/
inductive JsVal
  | undef
  | vstr (s : String)
  | vnum (q : JsNum)

/-- JS `String(v)` for the values above. -/
def jsValToString : JsVal → String
  | .undef => "undefined"
  | .vstr s => s
  | .vnum none => "NaN"
  | .vnum (some q) => qToString q

/-- The helper `toNum` of src/unnamed/part_001 (and the identical local
`num` of src/server.js and src/unnamed/part_002): undefined, null and the
empty string give NaN, every other value is stringified, stripped of all
characters outside [0-9.-] and fed to Number(). -/
def toNum : JsVal → JsNum
  | .undef => none
  | .vstr s => if s = "" then none else jsParseNum (jsStrip s)
  | .vnum q => jsParseNum (jsStrip (jsValToString (.vnum q)))

def ofStr? : Option String → JsVal
  | none => .undef
  | some s => .vstr s

/-! ### String maps (JS objects with string-valued fields) -/

abbrev StrMap := List (String × String)

def getv : StrMap → String → Option String
  | [], _ => none
  | (k2, v) :: rest, k => if k2 = k then some v else getv rest k

/-- JS `k in out`. -/
def hasKey (m : StrMap) (k : String) : Bool := (getv m k).isSome

/-- JS property assignment out[k] = v (replaces the first binding, else
appends). -/
def setv : StrMap → String → String → StrMap
  | [], k, v => [(k, v)]
  | (k2, v2) :: rest, k, v =>
    if k2 = k then (k2, v) :: rest else (k2, v2) :: setv rest k v

/-- The guarded assignment pattern if (!(k in out)) out[k] = v. -/
def setIfAbsent (m : StrMap) (k v : String) : StrMap :=
  if hasKey m k then m else setv m k v

/-- True when the field is missing or holds the empty string: on string
fields this is exactly JS falsiness !out[k], and also exactly
!(k in out) || out[k] === "". -/
def isBlankAt (m : StrMap) (k : String) : Bool :=
  match getv m k with
  | none => true
  | some s => s == ""

/-- The guarded assignment patterns if (!out[k]) out[k] = v and
if (!(k in out) || out[k] === "") out[k] = v, which coincide on string
fields: both fire exactly when the field is missing or the empty string. -/
def setIfBlank (m : StrMap) (k v : String) : StrMap :=
  if isBlankAt m k then setv m k v else m

/-- Parses the field k of the map as the source does with toNum(out.k). -/
def numS (m : StrMap) (k : String) : JsNum := toNum (ofStr? (getv m k))

/-! ### Map lemmas -/

@[simp] theorem getv_setv_self (m : StrMap) (k v : String) :
    getv (setv m k v) k = some v := by
  induction m with
  | nil => simp [setv, getv]
  | cons p rest ih =>
    by_cases h : p.1 = k
    · simp [setv, getv, h]
    · simp [setv, getv, h, ih]

theorem getv_setv_ne (m : StrMap) {k k2 : String} (v : String) (h : k2 ≠ k) :
    getv (setv m k2 v) k = getv m k := by
  induction m with
  | nil => simp [setv, getv, h]
  | cons p rest ih =>
    by_cases h2 : p.1 = k2
    · simp [setv, getv, h2, h]
    · simp [setv, getv, h2, ih]

theorem hasKey_setv_ne (m : StrMap) {k k2 : String} (v : String) (h : k2 ≠ k) :
    hasKey (setv m k2 v) k = hasKey m k := by
  simp [hasKey, getv_setv_ne m v h]

theorem getv_setIfAbsent_of_some {m : StrMap} {k w : String} (k2 v : String)
    (h : getv m k = some w) : getv (setIfAbsent m k2 v) k = some w := by
  by_cases hk : k2 = k
  · subst hk
    simp [setIfAbsent, hasKey, h]
  · unfold setIfAbsent
    split
    · exact h
    · rw [getv_setv_ne m v hk, h]

theorem getv_setIfBlank_of_some {m : StrMap} {k w : String} (k2 v : String)
    (h : getv m k = some w) (hw : w ≠ "") :
    getv (setIfBlank m k2 v) k = some w := by
  by_cases hk : k2 = k
  · subst hk
    have hb : isBlankAt m k2 = false := by
      simp [isBlankAt, h, hw]
    simp [setIfBlank, hb, h]
  · unfold setIfBlank
    split
    · rw [getv_setv_ne m v hk, h]
    · exact h

theorem getv_setIfAbsent_ne (m : StrMap) {k k2 : String} (v : String)
    (h : k2 ≠ k) : getv (setIfAbsent m k2 v) k = getv m k := by
  unfold setIfAbsent
  split
  · rfl
  · exact getv_setv_ne m v h

theorem getv_setIfBlank_ne (m : StrMap) {k k2 : String} (v : String)
    (h : k2 ≠ k) : getv (setIfBlank m k2 v) k = getv m k := by
  unfold setIfBlank
  split
  · exact getv_setv_ne m v h
  · rfl

theorem hasKey_setIfAbsent_ne (m : StrMap) {k k2 : String} (v : String)
    (h : k2 ≠ k) : hasKey (setIfAbsent m k2 v) k = hasKey m k := by
  simp [hasKey, getv_setIfAbsent_ne m v h]

theorem hasKey_setIfBlank_ne (m : StrMap) {k k2 : String} (v : String)
    (h : k2 ≠ k) : hasKey (setIfBlank m k2 v) k = hasKey m k := by
  simp [hasKey, getv_setIfBlank_ne m v h]

theorem getv_setIfAbsent_self {m : StrMap} {k : String} (v : String)
    (h : hasKey m k = false) : getv (setIfAbsent m k v) k = some v := by
  simp [setIfAbsent, h]

theorem getv_setIfAbsent_isSome (m : StrMap) (k v : String) :
    (getv (setIfAbsent m k v) k).isSome = true := by
  unfold setIfAbsent
  split
  · next h => simpa [hasKey] using h
  · simp

/-! ### Financial helpers of src/unnamed/part_001 -/

/-- Loop body of npv: flows.reduce((acc, cf, t) => acc + cf / (1+rate)^t, 0). -/
def npvGo (rate : ℚ) : List JsNum → ℕ → JsNum → JsNum
  | [], _, acc => acc
  | cf :: rest, t, acc =>
    npvGo rate rest (t + 1) (jsAdd acc (jsDiv cf (some ((1 + rate) ^ t))))

/-- NPV of an annual flow (t0..tn) at annual rate r (lines 101-103). -/
def npv (rate : ℚ) (flows : List JsNum) : JsNum := npvGo rate flows 0 (some 0)

/-- Loop body of the NPV derivative used inside irr: the t = 0 term is
skipped, every other term subtracts t·cf/(1+r)^(t+1). -/
def dNpvGo (r : ℚ) : List JsNum → ℕ → JsNum → JsNum
  | [], _, acc => acc
  | cf :: rest, t, acc =>
    if t = 0 then dNpvGo r rest (t + 1) acc
    else dNpvGo r rest (t + 1)
      (jsSub acc (jsDiv (jsMul (some (t : ℚ)) cf) (some ((1 + r) ^ (t + 1)))))

def dNPV (flows : List JsNum) (r : ℚ) : JsNum := dNpvGo r flows 0 (some 0)

/-- Newton-Raphson convergence tolerance of irr (const tol = 1e-7). -/
def tolIrr : ℚ := 1 / 10 ^ 7

/-- The Newton-Raphson phase of irr (maxIter = 100): breaks to the
fallback (`none`) when the derivative magnitude drops below 1e-12, when an
iterate becomes non-finite, or when the iteration budget runs out; returns
the new iterate once two successive iterates are within tol. -/
def newtonGo (flows : List JsNum) : ℕ → ℚ → Option ℚ
  | 0, _ => none
  | fuel + 1, r =>
    let f := npv r flows
    let df := dNPV flows r
    if jsAbsLt df (1 / 10 ^ 12) then none
    else
      match jsSub (some r) (jsDiv f df) with
      | none => none
      | some rNext =>
        if |rNext - r| < tolIrr then some rNext else newtonGo flows fuel rNext

/-- The bisection fallback of irr over [low, high] (200 iterations):
returns the midpoint once |npv(mid)| < tol, otherwise narrows toward the
half with the sign change; `none` when the budget runs out. -/
def bisectGo (flows : List JsNum) : ℕ → ℚ → ℚ → JsNum → JsNum → Option ℚ
  | 0, _, _, _, _ => none
  | fuel + 1, low, high, fLow, fHigh =>
    let mid := (low + high) / 2
    let fMid := npv mid flows
    if jsAbsLt fMid tolIrr then some mid
    else if jsLtZero (jsMul fLow fMid) then bisectGo flows fuel low mid fLow fMid
    else bisectGo flows fuel mid high fMid fHigh

/-- IRR by Newton-Raphson with a bisection fallback over [-0.9, 5]
(lines 106-142 of src/unnamed/part_001); `none` models the NaN result. -/
def irr (flows : List JsNum) (guess : ℚ) : Option ℚ :=
  match newtonGo flows 100 guess with
  | some r => some r
  | none =>
    let fLow := npv (-(9 / 10)) flows
    let fHigh := npv 5 flows
    if jsGtZero (jsMul fLow fHigh) then none
    else bisectGo flows 200 (-(9 / 10)) 5 fLow fHigh

/-- Loop of paybackYears: t is the current index, cum the cumulative sum
before this year.  A NaN cumulative sum never satisfies cum >= 0, as in
JS. -/
def paybackAux : List JsNum → ℕ → JsNum → Option ℚ
  | [], _, _ => none
  | cf :: rest, t, cum =>
    let cum2 := jsAdd cum cf
    match cum2, cf with
    | some c2, some c =>
      if 0 ≤ c2 then
        let prevCum := c2 - c
        let frac : ℚ := if c ≠ 0 then (0 - prevCum) / c else 0
        some ((t : ℚ) - 1 + max 0 (min 1 frac))
      else paybackAux rest (t + 1) cum2
    | _, _ => paybackAux rest (t + 1) cum2

/-- Payback in fractional years (lines 145-157 of src/unnamed/part_001):
first index where the cumulative flow is non-negative, with linear
interpolation inside that year; `none` (NaN) when never recovered. -/
def paybackYears (flows : List JsNum) : Option ℚ := paybackAux flows 0 (some 0)

/-! ### Cash-flow construction of src/unnamed/part_001, lines 235-256 -/

/-- Tax benefit recognized in year y: zero when the benefit is NaN, the
whole benefit in year 1 under mode YEAR1, one fifth in years 1..5 under
mode DISTRIB_5Y.  The two ifs are sequential as in the source. -/
def benY (mode : String) (taxBenefit : JsNum) (y : ℕ) : ℚ :=
  match taxBenefit with
  | none => 0
  | some b =>
    let v : ℚ := 0
    let v := if mode == "YEAR1" && y == 1 then b else v
    let v := if mode == "DISTRIB_5Y" && decide (y ≤ 5) then b / 5 else v
    v

/-- The year-indexed flow list: year 0 pushes -investment (NaN if the
investment is NaN), years 1..years push degraded annual savings minus
O&M plus the recognized tax benefit, with NaN inputs degrading to 0 as in
the source guards. -/
def buildFlows (investment monthlySavings0 : JsNum) (years : ℕ)
    (degrad omRate : ℚ) (taxBenefit : JsNum) (mode : String) : List JsNum :=
  (match investment with | none => none | some i => some (-i)) ::
    (List.range years).map (fun i =>
      let y := i + 1
      let ahMes : ℚ :=
        match monthlySavings0 with
        | none => 0
        | some a => a * (1 - degrad) ^ (y - 1)
      let ahorroAnual := ahMes * 12
      let oym : ℚ :=
        match investment with
        | none => 0
        | some inv => inv * omRate
      some (ahorroAnual - oym + benY mode taxBenefit y))

/-! ### Formatting helpers shared by the variants -/

/-- formatCO of src/unnamed/part_001 lines 160-164, identical to the local
formatNum of src/server.js lines 119-124: parse with toNum, empty string
on NaN, otherwise toLocaleString("es-CO"). -/
def formatCO (v : JsVal) : String :=
  match toNum v with
  | none => ""
  | some n => toLocaleCO n

/-! ### The sizing derivation shared by the three computeFields variants -/

/-- Values carried between the steps of computeFields: the object under
construction plus the numeric locals ENERGIA, FACTURA, INVERSION_TOTAL. -/
structure SizingCtx where
  out : StrMap
  energia : JsNum
  factura : JsNum
  invTotal : JsNum

/-- The lines shared verbatim by src/server.js (96-152),
src/unnamed/part_001 (182-212) and src/unnamed/part_002 (95-134): the date
default, the ENERGIA/FACTURA parses and the derivations of POTENCIA,
PANELES, INVERSORES, INVERSION_TOTAL, each only when the field is absent.
`today` stands for the formatted current date the source builds from the
clock. -/
def deriveSizing (today : String) (input : StrMap) : SizingCtx :=
  let out := input
  let out := setIfBlank out "FECHA" today
  let energia := numS out "ENERGIA"
  let factura := numS out "FACTURA"
  let out := setIfAbsent out "POTENCIA"
    (match energia with
     | none => ""
     | some e =>
       let pot := (e * (12 / 10)) / ((42 / 10) * 30 * (81 / 100))
       qToString ((jsRound (pot * 100) : ℚ) / 100))
  let potencia := numS out "POTENCIA"
  let out := setIfAbsent out "PANELES"
    (match potencia with
     | none => ""
     | some p => intStr (jsCeil (p * 1000 / 645)))
  let out := setIfAbsent out "INVERSORES"
    (match potencia with
     | none => ""
     | some p => intStr (jsCeil (p / (125 / 100))))
  let out := setIfAbsent out "INVERSION_TOTAL"
    (match potencia with
     | none => ""
     | some p => intStr (jsRound (p * 3550000)))
  let invTotal := numS out "INVERSION_TOTAL"
  ⟨out, energia, factura, invTotal⟩

/-- The BENEFICIO_TRIBUTARIO derivation (server.js 154-157, part_001
222-225, part_002 136-139). -/
def setBeneficio (m : StrMap) (invTotal : JsNum) : StrMap :=
  setIfAbsent m "BENEFICIO_TRIBUTARIO"
    (match invTotal with
     | none => ""
     | some i => intStr (jsRound (i / 2)))

/-- The four fixed financial constants of src/server.js lines 159-175 and
src/unnamed/part_002 lines 141-157. -/
def setFixedFinancials (m : StrMap) : StrMap :=
  let m := setIfAbsent m "TIR" (toFixedStr ((19 / 100) / 3 * 100) 2 ++ "%")
  let m := setIfAbsent m "BC" (qToString (5 / 2))
  let m := setIfAbsent m "AHORRO_TOTAL" (intStr (jsRound (250000000 / 3)))
  let m := setIfAbsent m "RECUPERACION_INVERSION" (qToString (6 / 2))
  m

/-- The payment block of src/server.js lines 178-191: only when
INVERSION_TOTAL parsed, each PAGO that is absent or empty becomes its
fixed 30/20/40/10 share. -/
def setPagos (m : StrMap) (invTotal : JsNum) : StrMap :=
  match invTotal with
  | none => m
  | some i =>
    let m := setIfBlank m "PAGO1" (intStr (jsRound (i * (30 / 100))))
    let m := setIfBlank m "PAGO2" (intStr (jsRound (i * (20 / 100))))
    let m := setIfBlank m "PAGO3" (intStr (jsRound (i * (40 / 100))))
    let m := setIfBlank m "PAGO4" (intStr (jsRound (i * (10 / 100))))
    m

/-- The base-value echo of src/server.js lines 196-197 and src/unnamed/
part_001 lines 310-311: if the field is absent, write the stringified
parse, or the empty string if the parse was NaN. -/
def echoParsed (m : StrMap) (k : String) (v : JsNum) : StrMap :=
  setIfAbsent m k (match v with | none => "" | some q => qToString q)

/-- The base-value echo of src/unnamed/part_002 lines 159-160: only when
the field is absent and the parse succeeded. -/
def echoIfParsed (m : StrMap) (k : String) (v : JsNum) : StrMap :=
  if !hasKey m k then
    match v with
    | none => m
    | some q => setv m k (qToString q)
  else m

/-- The unconditional formatting pass shared verbatim by src/server.js
lines 200-209 and src/unnamed/part_001 lines 313-322. -/
def formatPass (m : StrMap) : StrMap :=
  let m := setv m "INVERSION_TOTAL" (formatCO (ofStr? (getv m "INVERSION_TOTAL")))
  let m := setv m "BENEFICIO_TRIBUTARIO" (formatCO (ofStr? (getv m "BENEFICIO_TRIBUTARIO")))
  let m := setv m "AHORRO_TOTAL" (formatCO (ofStr? (getv m "AHORRO_TOTAL")))
  let m := setv m "FACTURA" (formatCO (ofStr? (getv m "FACTURA")))
  let m := setv m "ENERGIA" (formatCO (ofStr? (getv m "ENERGIA")))
  let m := setv m "PAGO1" (formatCO (ofStr? (getv m "PAGO1")))
  let m := setv m "PAGO2" (formatCO (ofStr? (getv m "PAGO2")))
  let m := setv m "PAGO3" (formatCO (ofStr? (getv m "PAGO3")))
  let m := setv m "PAGO4" (formatCO (ofStr? (getv m "PAGO4")))
  let m := setv m "IVA_MATERIALES" (formatCO (ofStr? (getv m "IVA_MATERIALES")))
  m

/-! ### computeFields, src/server.js lines 93-221 -/

/-- The computeFields of src/server.js: the shared sizing derivation, the
tax benefit, the four fixed constants, the payment block, the base-value
echo and the final formatting pass, in source order. -/
def computeFields_server (today : String) (input : StrMap) : StrMap :=
  let c := deriveSizing today input
  let out := setBeneficio c.out c.invTotal
  let out := setFixedFinancials out
  let out := setPagos out c.invTotal
  let out := echoParsed out "ENERGIA" c.energia
  let out := echoParsed out "FACTURA" c.factura
  let out := formatPass out
  out

/-! ### computeFields, src/unnamed/part_002 lines 92-163 -/

/-- The computeFields of src/unnamed/part_002: same derivations as
src/server.js up to the four fixed constants, no payment block and no
formatting pass; ENERGIA and FACTURA are echoed back only when they
parsed. -/
def computeFields_p2 (today : String) (input : StrMap) : StrMap :=
  let c := deriveSizing today input
  let out := setBeneficio c.out c.invTotal
  let out := setFixedFinancials out
  let out := echoIfParsed out "ENERGIA" c.energia
  let out := echoIfParsed out "FACTURA" c.factura
  out

/-! ### computeFields, src/unnamed/part_001 lines 167-325 -/

def P1_YEARS : ℕ := 25
def P1_DISCOUNT : ℚ := 12 / 100
def P1_SAVINGS_RATE : ℚ := 80 / 100
def P1_O_M_RATE : ℚ := 1 / 100
def P1_DEGRAD : ℚ := 5 / 1000
def P1_VAT : ℚ := 19 / 100
def P1_MATERIALES_SHARE : ℚ := 60 / 100
def P1_TAX_BENEFIT_MODE : String := "YEAR1"

/-- Intermediate state of computeFields (part_001) after the sizing and
tax-benefit derivations (lines 182-230), just before the flow loop. -/
structure P1Ctx where
  out : StrMap
  energia : JsNum
  factura : JsNum
  invTotal : JsNum
  benef : JsNum
  ahorroMensual0 : JsNum

/-- Lines 182-230 of src/unnamed/part_001: the shared sizing derivation,
then IVA on the materials share, the tax benefit and the monthly savings
estimate. -/
def p1Derive (today : String) (input : StrMap) : P1Ctx :=
  let c := deriveSizing today input
  let out := c.out
  let materialesBase : JsNum :=
    if hasKey out "MATERIALES_BASE" then numS out "MATERIALES_BASE"
    else match c.invTotal with
      | none => none
      | some i => some (i * P1_MATERIALES_SHARE)
  let ivaMateriales : JsNum :=
    match materialesBase with
    | none => none
    | some b => some (b * P1_VAT)
  let out := setv out "IVA_MATERIALES" (formatCO (JsVal.vnum ivaMateriales))
  let out := setBeneficio out c.invTotal
  let benef := numS out "BENEFICIO_TRIBUTARIO"
  let ahorroMensual0 : JsNum :=
    match c.factura with
    | none => none
    | some f => some (f * P1_SAVINGS_RATE)
  ⟨out, c.energia, c.factura, c.invTotal, benef, ahorroMensual0⟩

/-- The annual flow list built inside computeFields (part_001 lines
235-256). -/
def p1Flows (today : String) (input : StrMap) : List JsNum :=
  let c := p1Derive today input
  buildFlows c.invTotal c.ahorroMensual0 P1_YEARS P1_DEGRAD P1_O_M_RATE
    c.benef P1_TAX_BENEFIT_MODE

/-- Sum of the degraded gross annual savings over the horizon (part_001
lines 259-268); 0 when the monthly savings are NaN. -/
def sumAhorros (a0 : JsNum) : ℚ :=
  match a0 with
  | none => 0
  | some a => ((List.range P1_YEARS).map (fun i => a * (1 - P1_DEGRAD) ^ i * 12)).sum

/-- Benefit flows of the B/C block (part_001 lines 275-285). -/
def p1BenFlows (a0 benef : JsNum) : List JsNum :=
  some 0 :: (List.range P1_YEARS).map (fun i =>
    let y := i + 1
    let ahMes : ℚ :=
      match a0 with
      | none => 0
      | some a => a * (1 - P1_DEGRAD) ^ (y - 1)
    some (ahMes * 12 + benY P1_TAX_BENEFIT_MODE benef y))

/-- Cost flows of the B/C block (part_001 lines 276-288): investment as a
positive year-0 cost, O&M thereafter, NaN degrading to 0. -/
def p1CostFlows (invTotal : JsNum) : List JsNum :=
  (match invTotal with | none => some 0 | some i => some i) ::
    (List.range P1_YEARS).map (fun _ =>
      match invTotal with
      | none => some (0 : ℚ)
      | some i => some (i * P1_O_M_RATE))

/-- The computeFields of src/unnamed/part_001: derivations, flow model,
B/C, IRR, payback, ROI and the final formatting pass. -/
def computeFields_p1 (today : String) (input : StrMap) : StrMap :=
  let c := p1Derive today input
  let flows := p1Flows today input
  let out := c.out
  let out := setIfAbsent out "AHORRO_TOTAL" (intStr (jsRound (sumAhorros c.ahorroMensual0)))
  let out := setv out "BC"
    (let pvBen := npv P1_DISCOUNT (p1BenFlows c.ahorroMensual0 c.benef)
     let pvCost := npv P1_DISCOUNT (p1CostFlows c.invTotal)
     let bc : JsNum := if jsGtZero pvCost then jsDiv pvBen pvCost else none
     match bc with
     | none => ""
     | some b => toFixedStr b 2)
  let out := setv out "TIR"
    (match irr flows (1 / 10) with
     | none => ""
     | some r => toFixedStr (r * 100) 2 ++ "%")
  let out := setv out "RECUPERACION_INVERSION"
    (match paybackYears flows with
     | none => ""
     | some pb => toFixedStr pb 1)
  let out := setv out "ROI"
    (let totalIn := (flows.drop 1).foldl jsAdd (some 0)
     let f0 := flows.headD none
     let roi : JsNum :=
       match c.invTotal with
       | none => none
       | some _ =>
         jsDiv (jsAdd totalIn f0) (match f0 with | none => none | some q => some |q|)
     match roi with
     | none => ""
     | some r => toFixedStr (r * 100) 1 ++ "%")
  let out := echoParsed out "ENERGIA" c.energia
  let out := echoParsed out "FACTURA" c.factura
  let out := formatPass out
  out

/-! ### Document assembly, src/server.js lines 20-28 and 75-89, 268-277 -/

/-- A PDF byte buffer, modeled by the page list of the document it parses
to; `none` models a missing (null) or zero-length buffer, which is exactly
what the guard !b || !b.length skips. -/
abbrev PdfBuffer (α : Type) := Option (List α)

/-- mergePdfBuffers of src/server.js lines 75-84: skip missing or empty
buffers, append every page of each remaining buffer in order. -/
def mergePdfBuffers {α : Type} (bufs : List (PdfBuffer α)) : List α :=
  bufs.foldl (fun out b => match b with | none => out | some ps => out ++ ps) []

def STATIC_afterIndex2 : List String := ["anexo1.pdf", "anexo2.pdf"]
def STATIC_afterIndex3 : List String := ["anexo3.pdf"]

/-- The merge call of POST /render/cotizacion (src/server.js lines
268-277): the three rendered pages and the static annexes in the fixed
interleave, with missing static files dropped by filter(Boolean). -/
def assembleCotizacion {α : Type} (pdfIndex pdfIndex2 pdfIndex3 : PdfBuffer α)
    (readStatic : String → PdfBuffer α) : List α :=
  let annexAfter2 := (STATIC_afterIndex2.map readStatic).filterMap id
  let annexAfter3 := (STATIC_afterIndex3.map readStatic).filterMap id
  mergePdfBuffers
    ([pdfIndex, pdfIndex2] ++ annexAfter2.map some ++ [pdfIndex3] ++ annexAfter3.map some)

/-! ### Preservation lemmas for the computeFields blocks -/

theorem getv_deriveSizing_of_some {input : StrMap} {k w : String} (today : String)
    (h : getv input k = some w) (hw : w ≠ "") :
    getv (deriveSizing today input).out k = some w :=
  getv_setIfAbsent_of_some _ _ (getv_setIfAbsent_of_some _ _
    (getv_setIfAbsent_of_some _ _ (getv_setIfAbsent_of_some _ _
      (getv_setIfBlank_of_some _ _ h hw))))

theorem getv_deriveSizing_ne (today : String) (input : StrMap) {k : String}
    (h1 : "FECHA" ≠ k) (h2 : "POTENCIA" ≠ k) (h3 : "PANELES" ≠ k)
    (h4 : "INVERSORES" ≠ k) (h5 : "INVERSION_TOTAL" ≠ k) :
    getv (deriveSizing today input).out k = getv input k := by
  show getv (setIfAbsent (setIfAbsent (setIfAbsent (setIfAbsent
    (setIfBlank input "FECHA" today) "POTENCIA" _) "PANELES" _) "INVERSORES" _)
    "INVERSION_TOTAL" _) k = getv input k
  rw [getv_setIfAbsent_ne _ _ h5, getv_setIfAbsent_ne _ _ h4,
    getv_setIfAbsent_ne _ _ h3, getv_setIfAbsent_ne _ _ h2,
    getv_setIfBlank_ne _ _ h1]

theorem hasKey_deriveSizing_ne (today : String) (input : StrMap) {k : String}
    (h1 : "FECHA" ≠ k) (h2 : "POTENCIA" ≠ k) (h3 : "PANELES" ≠ k)
    (h4 : "INVERSORES" ≠ k) (h5 : "INVERSION_TOTAL" ≠ k) :
    hasKey (deriveSizing today input).out k = hasKey input k := by
  simp [hasKey, getv_deriveSizing_ne today input h1 h2 h3 h4 h5]

theorem getv_setBeneficio_of_some {m : StrMap} {k w : String} (inv : JsNum)
    (h : getv m k = some w) : getv (setBeneficio m inv) k = some w :=
  getv_setIfAbsent_of_some _ _ h

theorem getv_setBeneficio_ne (m : StrMap) (inv : JsNum) {k : String}
    (h : "BENEFICIO_TRIBUTARIO" ≠ k) : getv (setBeneficio m inv) k = getv m k :=
  getv_setIfAbsent_ne _ _ h

theorem hasKey_setBeneficio_ne (m : StrMap) (inv : JsNum) {k : String}
    (h : "BENEFICIO_TRIBUTARIO" ≠ k) : hasKey (setBeneficio m inv) k = hasKey m k := by
  simp [hasKey, getv_setBeneficio_ne m inv h]

theorem getv_setFixedFinancials_of_some {m : StrMap} {k w : String}
    (h : getv m k = some w) : getv (setFixedFinancials m) k = some w :=
  getv_setIfAbsent_of_some _ _ (getv_setIfAbsent_of_some _ _
    (getv_setIfAbsent_of_some _ _ (getv_setIfAbsent_of_some _ _ h)))

theorem getv_setFixedFinancials_ne (m : StrMap) {k : String}
    (h1 : "TIR" ≠ k) (h2 : "BC" ≠ k) (h3 : "AHORRO_TOTAL" ≠ k)
    (h4 : "RECUPERACION_INVERSION" ≠ k) :
    getv (setFixedFinancials m) k = getv m k := by
  show getv (setIfAbsent (setIfAbsent (setIfAbsent (setIfAbsent m "TIR" _)
    "BC" _) "AHORRO_TOTAL" _) "RECUPERACION_INVERSION" _) k = getv m k
  rw [getv_setIfAbsent_ne _ _ h4, getv_setIfAbsent_ne _ _ h3,
    getv_setIfAbsent_ne _ _ h2, getv_setIfAbsent_ne _ _ h1]

theorem getv_setFixedFinancials_TIR (m : StrMap) (h : hasKey m "TIR" = false) :
    getv (setFixedFinancials m) "TIR" =
      some (toFixedStr ((19 / 100) / 3 * 100) 2 ++ "%") := by
  show getv (setIfAbsent (setIfAbsent (setIfAbsent (setIfAbsent m "TIR" _)
    "BC" _) "AHORRO_TOTAL" _) "RECUPERACION_INVERSION" _) "TIR" = _
  rw [getv_setIfAbsent_ne _ _ (by decide), getv_setIfAbsent_ne _ _ (by decide),
    getv_setIfAbsent_ne _ _ (by decide)]
  exact getv_setIfAbsent_self _ h

theorem getv_setFixedFinancials_BC (m : StrMap) (h : hasKey m "BC" = false) :
    getv (setFixedFinancials m) "BC" = some (qToString (5 / 2)) := by
  show getv (setIfAbsent (setIfAbsent (setIfAbsent (setIfAbsent m "TIR" _)
    "BC" _) "AHORRO_TOTAL" _) "RECUPERACION_INVERSION" _) "BC" = _
  rw [getv_setIfAbsent_ne _ _ (by decide), getv_setIfAbsent_ne _ _ (by decide)]
  refine getv_setIfAbsent_self _ ?_
  rw [hasKey_setIfAbsent_ne _ _ (by decide)]
  exact h

theorem getv_setFixedFinancials_AHORRO (m : StrMap)
    (h : hasKey m "AHORRO_TOTAL" = false) :
    getv (setFixedFinancials m) "AHORRO_TOTAL" =
      some (intStr (jsRound (250000000 / 3))) := by
  show getv (setIfAbsent (setIfAbsent (setIfAbsent (setIfAbsent m "TIR" _)
    "BC" _) "AHORRO_TOTAL" _) "RECUPERACION_INVERSION" _) "AHORRO_TOTAL" = _
  rw [getv_setIfAbsent_ne _ _ (by decide)]
  refine getv_setIfAbsent_self _ ?_
  rw [hasKey_setIfAbsent_ne _ _ (by decide), hasKey_setIfAbsent_ne _ _ (by decide)]
  exact h

theorem getv_setFixedFinancials_REC (m : StrMap)
    (h : hasKey m "RECUPERACION_INVERSION" = false) :
    getv (setFixedFinancials m) "RECUPERACION_INVERSION" =
      some (qToString (6 / 2)) := by
  show getv (setIfAbsent (setIfAbsent (setIfAbsent (setIfAbsent m "TIR" _)
    "BC" _) "AHORRO_TOTAL" _) "RECUPERACION_INVERSION" _) "RECUPERACION_INVERSION" = _
  refine getv_setIfAbsent_self _ ?_
  rw [hasKey_setIfAbsent_ne _ _ (by decide), hasKey_setIfAbsent_ne _ _ (by decide),
    hasKey_setIfAbsent_ne _ _ (by decide)]
  exact h

theorem getv_setPagos_ne (m : StrMap) (inv : JsNum) {k : String}
    (h1 : "PAGO1" ≠ k) (h2 : "PAGO2" ≠ k) (h3 : "PAGO3" ≠ k) (h4 : "PAGO4" ≠ k) :
    getv (setPagos m inv) k = getv m k := by
  unfold setPagos
  cases inv with
  | none => rfl
  | some i =>
    rw [getv_setIfBlank_ne _ _ h4, getv_setIfBlank_ne _ _ h3,
      getv_setIfBlank_ne _ _ h2, getv_setIfBlank_ne _ _ h1]

theorem hasKey_setPagos_ne (m : StrMap) (inv : JsNum) {k : String}
    (h1 : "PAGO1" ≠ k) (h2 : "PAGO2" ≠ k) (h3 : "PAGO3" ≠ k) (h4 : "PAGO4" ≠ k) :
    hasKey (setPagos m inv) k = hasKey m k := by
  simp [hasKey, getv_setPagos_ne m inv h1 h2 h3 h4]

theorem getv_echoParsed_of_some {m : StrMap} {k w : String} (k2 : String)
    (v : JsNum) (h : getv m k = some w) : getv (echoParsed m k2 v) k = some w :=
  getv_setIfAbsent_of_some _ _ h

theorem getv_echoParsed_ne (m : StrMap) (k2 : String) (v : JsNum) {k : String}
    (h : k2 ≠ k) : getv (echoParsed m k2 v) k = getv m k :=
  getv_setIfAbsent_ne _ _ h

theorem hasKey_echoParsed_ne (m : StrMap) (k2 : String) (v : JsNum) {k : String}
    (h : k2 ≠ k) : hasKey (echoParsed m k2 v) k = hasKey m k := by
  simp [hasKey, getv_echoParsed_ne m k2 v h]

theorem getv_echoIfParsed_ne (m : StrMap) (k2 : String) (v : JsNum) {k : String}
    (h : k2 ≠ k) : getv (echoIfParsed m k2 v) k = getv m k := by
  unfold echoIfParsed
  split
  · cases v with
    | none => rfl
    | some q => exact getv_setv_ne _ _ h
  · rfl

/-- The ten field names rewritten by the final formatting pass. -/
def formattedKeys : List String :=
  ["INVERSION_TOTAL", "BENEFICIO_TRIBUTARIO", "AHORRO_TOTAL", "FACTURA",
   "ENERGIA", "PAGO1", "PAGO2", "PAGO3", "PAGO4", "IVA_MATERIALES"]

theorem getv_formatPass_ne (m : StrMap) {k : String} (h : k ∉ formattedKeys) :
    getv (formatPass m) k = getv m k := by
  simp only [formattedKeys, List.mem_cons, List.mem_singleton, not_or] at h
  obtain ⟨n1, n2, n3, n4, n5, n6, n7, n8, n9, n10, -⟩ := h
  show getv (setv (setv (setv (setv (setv (setv (setv (setv (setv (setv m
    "INVERSION_TOTAL" _) "BENEFICIO_TRIBUTARIO" _) "AHORRO_TOTAL" _)
    "FACTURA" _) "ENERGIA" _) "PAGO1" _) "PAGO2" _) "PAGO3" _) "PAGO4" _)
    "IVA_MATERIALES" _) k = getv m k
  rw [getv_setv_ne _ _ (Ne.symm n10), getv_setv_ne _ _ (Ne.symm n9),
    getv_setv_ne _ _ (Ne.symm n8), getv_setv_ne _ _ (Ne.symm n7),
    getv_setv_ne _ _ (Ne.symm n6), getv_setv_ne _ _ (Ne.symm n5),
    getv_setv_ne _ _ (Ne.symm n4), getv_setv_ne _ _ (Ne.symm n3),
    getv_setv_ne _ _ (Ne.symm n2), getv_setv_ne _ _ (Ne.symm n1)]

theorem getv_formatPass_AHORRO (m : StrMap) :
    getv (formatPass m) "AHORRO_TOTAL" =
      formatCO (ofStr? (getv m "AHORRO_TOTAL")) := by
  show getv (setv (setv (setv (setv (setv (setv (setv (setv (setv (setv m
    "INVERSION_TOTAL" _) "BENEFICIO_TRIBUTARIO" _) "AHORRO_TOTAL"
    (formatCO (ofStr? (getv (setv (setv m "INVERSION_TOTAL" _)
      "BENEFICIO_TRIBUTARIO" _) "AHORRO_TOTAL"))))
    "FACTURA" _) "ENERGIA" _) "PAGO1" _) "PAGO2" _) "PAGO3" _) "PAGO4" _)
    "IVA_MATERIALES" _) "AHORRO_TOTAL" = _
  rw [getv_setv_ne _ _ (by decide), getv_setv_ne _ _ (by decide),
    getv_setv_ne _ _ (by decide), getv_setv_ne _ _ (by decide),
    getv_setv_ne _ _ (by decide), getv_setv_ne _ _ (by decide),
    getv_setv_ne _ _ (by decide), getv_setv_self]
  rw [getv_setv_ne _ _ (by decide), getv_setv_ne _ _ (by decide)]

theorem getv_formatPass_INVTOT (m : StrMap) :
    getv (formatPass m) "INVERSION_TOTAL" =
      formatCO (ofStr? (getv m "INVERSION_TOTAL")) := by
  show getv (setv (setv (setv (setv (setv (setv (setv (setv (setv (setv m
    "INVERSION_TOTAL" (formatCO (ofStr? (getv m "INVERSION_TOTAL"))))
    "BENEFICIO_TRIBUTARIO" _) "AHORRO_TOTAL" _)
    "FACTURA" _) "ENERGIA" _) "PAGO1" _) "PAGO2" _) "PAGO3" _) "PAGO4" _)
    "IVA_MATERIALES" _) "INVERSION_TOTAL" = _
  rw [getv_setv_ne _ _ (by decide), getv_setv_ne _ _ (by decide),
    getv_setv_ne _ _ (by decide), getv_setv_ne _ _ (by decide),
    getv_setv_ne _ _ (by decide), getv_setv_ne _ _ (by decide),
    getv_setv_ne _ _ (by decide), getv_setv_ne _ _ (by decide),
    getv_setv_ne _ _ (by decide), getv_setv_self]

/-! ### Merge lemmas -/

theorem mergePdfBuffers_go {α : Type} (bufs : List (PdfBuffer α)) (acc : List α) :
    bufs.foldl (fun out b => match b with | none => out | some ps => out ++ ps) acc
      = acc ++ (bufs.filterMap id).flatten := by
  induction bufs generalizing acc with
  | nil => simp
  | cons b rest ih =>
    cases b with
    | none => simpa using ih acc
    | some ps => simp [ih]

/-! ### Claim C7 -/

/-- C7: mergePdfBuffers skips every missing or empty buffer without error
and concatenates the pages of the remaining buffers in their input order,
so the output page count is the sum of the non-empty inputs' page counts;
in particular page counts [2, 0 (empty), 3] merge to the 5 pages in
order. -/
theorem C7_merge_pages :
    (∀ (α : Type) (bufs : List (PdfBuffer α)),
        mergePdfBuffers bufs = (bufs.filterMap id).flatten ∧
        (mergePdfBuffers bufs).length =
          ((bufs.filterMap id).map List.length).sum) ∧
    mergePdfBuffers [some [1, 2], none, some [3, 4, 5]] = [1, 2, 3, 4, 5] := by
  refine ⟨fun α bufs => ?_, by decide⟩
  have h : mergePdfBuffers bufs = (bufs.filterMap id).flatten := by
    simpa [mergePdfBuffers] using mergePdfBuffers_go bufs []
  exact ⟨h, by simp [h]⟩

/-! ### Claim C8 -/

/-- C8: for every request the assembled document is built from the buffers
in the fixed order page A (index), page B (index2), anexo1, anexo2,
page C (index3), anexo3; the order is baked into the code, not
configurable per request. -/
theorem C8_fixed_assembly_order {α : Type} (A B C a1 a2 a3 : List α)
    (readStatic : String → PdfBuffer α)
    (h1 : readStatic "anexo1.pdf" = some a1)
    (h2 : readStatic "anexo2.pdf" = some a2)
    (h3 : readStatic "anexo3.pdf" = some a3) :
    assembleCotizacion (some A) (some B) (some C) readStatic =
      A ++ B ++ a1 ++ a2 ++ C ++ a3 := by
  simp [assembleCotizacion, STATIC_afterIndex2, STATIC_afterIndex3, h1, h2, h3,
    mergePdfBuffers, List.append_assoc]

/-- Witness for C8 at concrete pages. -/
theorem C8_fixed_assembly_order_wit :
    assembleCotizacion (some [0]) (some [1]) (some [4])
      (fun p => if p = "anexo1.pdf" then some [2]
        else if p = "anexo2.pdf" then some [3] else some [5]) =
      [0, 1, 2, 3, 4, 5] := by
  have h := C8_fixed_assembly_order [0] [1] [4] [2] [3] [5]
    (fun p => if p = "anexo1.pdf" then some [2]
      else if p = "anexo2.pdf" then some [3] else some [5])
    (by decide) (by decide) (by decide)
  simpa using h

/-! ### Claim C6 -/

/-- C6 counterexample: the value "abc" is not parsable as a number
(Number("abc") is NaN), yet toNum returns 0 rather than NaN: stripping
deletes every character and Number("") is 0. -/
theorem C6_cx_digitless_is_zero :
    jsParseNum "abc" = none ∧ toNum (JsVal.vstr "abc") = some 0 := by
  constructor
  · simp +decide [jsParseNum, splitDot, digitsValAux]
  · simp +decide [toNum, jsValToString, jsStrip, isKeptChar, jsParseNum]

/-- C6 amended: toNum stringifies the value and strips every character
other than digits, dot and minus before the numeric parse; a non-empty
string parses exactly as Number() on its stripped form, so a stripped form
that is non-empty but invalid (such as "1.234.567") yields NaN — but a
value whose characters are all stripped (such as "$" or "abc") yields 0,
because Number("") is 0.  A currency-decorated number like "$ 3.50" parses
to its numeric value. -/
theorem C6_amended_strip_parse :
    (∀ s : String, s ≠ "" → toNum (JsVal.vstr s) = jsParseNum (jsStrip s)) ∧
    (∀ s : String, (jsStrip s).data.all isKeptChar = true) ∧
    jsParseNum "" = some 0 ∧
    toNum (JsVal.vstr "$") = some 0 ∧
    toNum (JsVal.vstr "1.234.567") = none ∧
    toNum (JsVal.vstr "$ 3.50") = some (7 / 2) := by
  refine ⟨?_, ?_, ?_, ?_, ?_, ?_⟩
  · intro s hs
    simp [toNum, hs]
  · intro s
    simp only [jsStrip, List.all_eq_true]
    intro c hc
    exact (List.mem_filter.mp hc).2
  · rfl
  · simp +decide [toNum, jsValToString, jsStrip, isKeptChar, jsParseNum]
  · simp +decide [toNum, jsValToString, jsStrip, isKeptChar, jsParseNum, splitDot,
      digitsValAux]
  · simp +decide [toNum, jsValToString, jsStrip, isKeptChar, jsParseNum, splitDot,
      digitsValAux]
    norm_num

/-- Witness for the C6 amended claim's universally quantified part. -/
theorem C6_amended_strip_parse_wit :
    toNum (JsVal.vstr "7 kWh") = jsParseNum (jsStrip "7 kWh") :=
  C6_amended_strip_parse.1 "7 kWh" (by decide)

/-! ### Claim C2 -/

/-- True when the flow list has both a positive and a negative entry. -/
def hasSignChange (flows : List ℚ) : Bool :=
  flows.any (fun q => decide (0 < q)) && flows.any (fun q => decide (q < 0))

/-- True when irr returns a rate whose NPV is within the tolerance of
zero. -/
def irrWithinTol (flows : List JsNum) : Bool :=
  match irr flows (1 / 10) with
  | none => false
  | some r => jsAbsLt (npv r flows) tolIrr

/-- C2 counterexample: the cash flow [1, -1, 1] changes sign, but its NPV
function has no real root (it is at least 3/4 everywhere), Newton-Raphson
breaks on a vanishing derivative magnitude after wandering off, and both
bracket endpoints have positive NPV, so irr returns NaN rather than a
rate whose NPV is within tolerance of zero. -/
theorem C2_cx_sign_change_nan :
    hasSignChange [1, -1, 1] = true ∧
    irr [some 1, some (-1), some 1] (1 / 10) = none := by
  with_unfolding_all decide

/-- C2 amended: irr is not a total near-root finder: a sign-changing flow
can still produce NaN (see the counterexample).  What holds: whenever the
bisection fallback returns a rate, the NPV there is within the tolerance
of zero; on the sign-changing flow [-100, 60, 60] Newton-Raphson
converges and the returned rate's NPV is within tolerance; on the
never-sign-changing flow [1, 1] irr returns NaN. -/
theorem C2_amended_irr :
    irrWithinTol [some (-100), some 60, some 60] = true ∧
    irr [some 1, some 1] (1 / 10) = none ∧
    (∀ (flows : List JsNum) (fuel : ℕ) (low high : ℚ) (fl fh : JsNum) (r : ℚ),
      bisectGo flows fuel low high fl fh = some r →
      jsAbsLt (npv r flows) tolIrr = true) := by
  refine ⟨by with_unfolding_all decide, by with_unfolding_all decide, ?_⟩
  intro flows fuel
  induction fuel with
  | zero => intro low high fl fh r h; exact absurd h (by simp [bisectGo])
  | succ n ih =>
    intro low high fl fh r h
    simp only [bisectGo] at h
    split at h
    · next hmid => cases h; exact hmid
    · split at h
      · exact ih _ _ _ _ _ h
      · exact ih _ _ _ _ _ h

/-- Witness for the C2 amended claim's bisection clause, at the all-zero
flow where bisection returns the first midpoint. -/
theorem C2_amended_irr_wit :
    jsAbsLt (npv (41 / 20) [some 0]) tolIrr = true :=
  C2_amended_irr.2.2 [some 0] 200 (-(9 / 10)) 5 (some 0) (some 0) (41 / 20)
    (by with_unfolding_all decide)

/-! ### Claim C3 -/

/-- The clamped linear-interpolation fraction paybackYears applies inside
the crossing year: (0 - prev)/cf clamped into [0, 1], or 0 for a zero
flow. -/
def clampFrac (prev cf : ℚ) : ℚ :=
  max 0 (min 1 (if cf ≠ 0 then (0 - prev) / cf else 0))

theorem paybackAux_crossing (l : List ℚ) :
    ∀ (t0 : ℕ) (c : ℚ) (t : ℕ), t < l.length →
      0 ≤ c + (l.take (t + 1)).sum →
      (∀ s, s < t → c + (l.take (s + 1)).sum < 0) →
      paybackAux (l.map some) t0 (some c) =
        some (((t0 + t : ℕ) : ℚ) - 1 +
          clampFrac (c + (l.take t).sum) (l.getD t 0)) := by
  induction l with
  | nil => intro t0 c t ht; exact absurd ht (by simp)
  | cons cf rest ih =>
    intro t0 c t ht hge hlt
    cases t with
    | zero =>
      have hge2 : 0 ≤ c + cf := by simpa using hge
      simp only [List.map_cons, paybackAux, jsAdd, if_pos hge2, clampFrac]
      norm_num
    | succ s =>
      have hneg : c + cf < 0 := by simpa using hlt 0 (Nat.succ_pos s)
      have hstep : paybackAux ((cf :: rest).map some) t0 (some c) =
          paybackAux (rest.map some) (t0 + 1) (some (c + cf)) := by
        simp only [List.map_cons, paybackAux, jsAdd, if_neg (not_le.mpr hneg)]
      rw [hstep, ih (t0 + 1) (c + cf) s (by simpa using ht)
        (by rw [add_assoc]; simpa [add_assoc] using hge)
        (fun u hu => by
          have := hlt (u + 1) (Nat.succ_lt_succ hu)
          rw [add_assoc]
          simpa [add_assoc] using this)]
      congr 1
      have h1 : ((t0 + 1 + s : ℕ) : ℚ) = ((t0 + (s + 1) : ℕ) : ℚ) := by
        push_cast; ring
      rw [h1]
      simp [add_assoc]

theorem paybackAux_never (l : List ℚ) :
    ∀ (t0 : ℕ) (c : ℚ),
      (∀ t, t < l.length → c + (l.take (t + 1)).sum < 0) →
      paybackAux (l.map some) t0 (some c) = none := by
  induction l with
  | nil => intro t0 c _; rfl
  | cons cf rest ih =>
    intro t0 c h
    have hneg : c + cf < 0 := by simpa using h 0 (by simp)
    have hstep : paybackAux ((cf :: rest).map some) t0 (some c) =
        paybackAux (rest.map some) (t0 + 1) (some (c + cf)) := by
      simp only [List.map_cons, paybackAux, jsAdd, if_neg (not_le.mpr hneg)]
    rw [hstep]
    exact ih (t0 + 1) (c + cf) (fun u hu => by
      have := h (u + 1) (by simpa using hu)
      rw [add_assoc]
      simpa [add_assoc] using this)

/-- C3: paybackYears returns the fractional year at which the cumulative
flow first becomes non-negative (first crossing index t, value t - 1 plus
the clamped interpolated fraction of year t), NaN when the cumulative flow
stays negative over the whole horizon; paybackYears [-100, 50, 50] = 2 and
paybackYears [-100, 60, 60] = 5/3 which lies in (1, 2). -/
theorem C3_payback_characterization :
    (∀ (flows : List ℚ) (t : ℕ), t < flows.length →
      0 ≤ (flows.take (t + 1)).sum →
      (∀ s, s < t → (flows.take (s + 1)).sum < 0) →
      paybackYears (flows.map some) =
        some ((t : ℚ) - 1 + clampFrac ((flows.take t).sum) (flows.getD t 0))) ∧
    (∀ flows : List ℚ,
      (∀ t, t < flows.length → (flows.take (t + 1)).sum < 0) →
      paybackYears (flows.map some) = none) ∧
    paybackYears [some (-100), some 50, some 50] = some 2 ∧
    paybackYears [some (-100), some 60, some 60] = some (5 / 3) ∧
    (1 : ℚ) < 5 / 3 ∧ (5 / 3 : ℚ) < 2 := by
  refine ⟨?_, ?_, by with_unfolding_all decide, by with_unfolding_all decide,
    by norm_num, by norm_num⟩
  · intro flows t ht hge hlt
    have h := paybackAux_crossing flows 0 0 t ht (by simpa using hge)
      (fun s hs => by simpa using hlt s hs)
    simpa [paybackYears] using h
  · intro flows h
    have h2 := paybackAux_never flows 0 0 (fun t ht => by simpa using h t ht)
    simpa [paybackYears] using h2

/-- Witness for the C3 first-crossing clause at the flow [-100, 60, 60]
(crossing at t = 2), and for the never-recovered clause at [-1, -1]. -/
theorem C3_payback_characterization_wit :
    paybackYears ([(-100 : ℚ), 60, 60].map some) =
      some ((2 : ℚ) - 1 + clampFrac (((-100 : ℚ) :: [60, 60]).take 2).sum
        ([(-100 : ℚ), 60, 60].getD 2 0)) ∧
    paybackYears ([(-1 : ℚ), -1].map some) = none := by
  constructor
  · exact C3_payback_characterization.1 [-100, 60, 60] 2 (by norm_num)
      (by norm_num) (by
        intro s hs
        interval_cases s <;> norm_num)
  · exact C3_payback_characterization.2.1 [-1, -1] (by
      intro t ht
      simp at ht
      interval_cases t <;> norm_num)

/-! ### Claim C4 -/

theorem benY_eq (mode : String) (tb : ℚ) (y : ℕ) :
    benY mode (some tb) y =
      (if mode = "YEAR1" ∧ y = 1 then tb
       else if mode = "DISTRIB_5Y" ∧ y ≤ 5 then tb / 5 else 0) := by
  unfold benY
  by_cases h1 : mode = "YEAR1"
  · subst h1
    by_cases h2 : y = 1 <;> by_cases h3 : y ≤ 5 <;> simp [h2, h3]
  · by_cases h2 : mode = "DISTRIB_5Y"
    · subst h2
      by_cases h3 : y ≤ 5 <;> simp [h1, h3]
    · simp [h1, h2]

/-- C4: the flow list built from investment, monthlySavings0, years,
degradationRate, omRate, taxBenefit and a recognition policy has
flow[0] = -investment and, for 1 ≤ y ≤ years,
flow[y] = monthlySavings0·(1-degradationRate)^(y-1)·12 -
investment·omRate + benefitY, where benefitY is the whole benefit under
YEAR1 in year 1, a fifth of it in years 1..5 under DISTRIB_5Y, else 0. -/
theorem C4_buildFlows_entries (inv m0 : ℚ) (years : ℕ) (d om tb : ℚ)
    (mode : String) (y : ℕ) (h1 : 1 ≤ y) (h2 : y ≤ years) :
    (buildFlows (some inv) (some m0) years d om (some tb) mode).get? 0 =
      some (some (-inv)) ∧
    (buildFlows (some inv) (some m0) years d om (some tb) mode).get? y =
      some (some (m0 * (1 - d) ^ (y - 1) * 12 - inv * om +
        (if mode = "YEAR1" ∧ y = 1 then tb
         else if mode = "DISTRIB_5Y" ∧ y ≤ 5 then tb / 5 else 0))) := by
  refine ⟨rfl, ?_⟩
  obtain ⟨i, rfl⟩ : ∃ i, y = i + 1 := ⟨y - 1, (Nat.succ_pred_eq_of_pos h1).symm⟩
  have hi : i < years := by omega
  unfold buildFlows
  rw [List.get?_cons_succ, List.get?_map, List.get?_range hi]
  simp [benY_eq]

/-- Witness for C4 at a concrete instance: investment 100, monthly savings
10, 3 years, no degradation, 1% O&M, benefit 50 recognized in year 1. -/
theorem C4_buildFlows_entries_wit :
    (buildFlows (some 100) (some 10) 3 0 (1 / 100) (some 50) "YEAR1").get? 0 =
      some (some (-100)) ∧
    (buildFlows (some 100) (some 10) 3 0 (1 / 100) (some 50) "YEAR1").get? 1 =
      some (some (10 * (1 - 0) ^ (1 - 1) * 12 - 100 * (1 / 100) +
        (if "YEAR1" = "YEAR1" ∧ 1 = 1 then (50 : ℚ)
         else if "YEAR1" = "DISTRIB_5Y" ∧ 1 ≤ 5 then 50 / 5 else 0))) :=
  C4_buildFlows_entries 100 10 3 0 (1 / 100) 50 "YEAR1" 1 (by norm_num)
    (by norm_num)

/-! ### Claim C9 -/

/-- C9 counterexample: with input INVERSION_TOTAL = "-500" the flow list
built inside computeFields (part_001) starts at +500 > 0, violating the
claimed invariant flows[0] ≤ 0: the code negates whatever the investment
parses to, and a negative supplied investment yields a positive year-0
entry. -/
theorem C9_cx_positive_head :
    (p1Flows "01/01/2026" [("INVERSION_TOTAL", "-500")]).get? 0 =
      some (some 500) ∧ ¬((500 : ℚ) ≤ 0) := by
  refine ⟨by with_unfolding_all decide, by norm_num⟩

/-- C9 amended: the year-0 entry of the flow list built inside
computeFields (part_001) is the negation of the parsed INVERSION_TOTAL,
so it is ≤ 0 whenever the parsed investment is non-negative (and NaN when
the investment is unparsable); the code does not enforce a non-negative
investment. -/
theorem C9_flows_head_nonpos (today : String) (input : StrMap) (q : ℚ)
    (hq : (p1Derive today input).invTotal = some q) (h0 : 0 ≤ q) :
    (p1Flows today input).get? 0 = some (some (-q)) ∧ -q ≤ 0 := by
  refine ⟨?_, neg_nonpos.mpr h0⟩
  simp only [p1Flows, buildFlows, hq]
  rfl

/-- Witness for C9 amended at a supplied non-negative investment. -/
theorem C9_flows_head_nonpos_wit :
    (p1Flows "01/01/2026" [("INVERSION_TOTAL", "500")]).get? 0 =
      some (some (-500)) ∧ -(500 : ℚ) ≤ 0 :=
  C9_flows_head_nonpos "01/01/2026" [("INVERSION_TOTAL", "500")] 500
    (by with_unfolding_all decide) (by norm_num)

/-! ### Claim C10 -/

/-- C10: in the src/server.js and src/unnamed/part_002 variants of
computeFields, whenever TIR, BC, AHORRO_TOTAL and RECUPERACION_INVERSION
are absent from the input they are assigned fixed constants — TIR
(0.19/3·100).toFixed(2)+"%" = "6.33%", BC = "2.5", AHORRO_TOTAL =
round(250000000/3) = 83333333 (which the server.js formatting pass then
groups as "83.333.333"), RECUPERACION_INVERSION = "3" — independent of
ENERGIA, FACTURA or any cash-flow computation: the input, including any
ENERGIA and FACTURA values, is universally quantified here. -/
theorem C10_fixed_constants (today : String) (input : StrMap)
    (h1 : hasKey input "TIR" = false) (h2 : hasKey input "BC" = false)
    (h3 : hasKey input "AHORRO_TOTAL" = false)
    (h4 : hasKey input "RECUPERACION_INVERSION" = false) :
    getv (computeFields_server today input) "TIR" = some "6.33%" ∧
    getv (computeFields_server today input) "BC" = some "2.5" ∧
    getv (computeFields_server today input) "AHORRO_TOTAL" = some "83.333.333" ∧
    getv (computeFields_server today input) "RECUPERACION_INVERSION" = some "3" ∧
    getv (computeFields_p2 today input) "TIR" = some "6.33%" ∧
    getv (computeFields_p2 today input) "BC" = some "2.5" ∧
    getv (computeFields_p2 today input) "AHORRO_TOTAL" = some "83333333" ∧
    getv (computeFields_p2 today input) "RECUPERACION_INVERSION" = some "3" := by
  have hb1 : hasKey (setBeneficio (deriveSizing today input).out
      (deriveSizing today input).invTotal) "TIR" = false := by
    rw [hasKey_setBeneficio_ne _ _ (by decide),
      hasKey_deriveSizing_ne today input (by decide) (by decide) (by decide)
        (by decide) (by decide)]
    exact h1
  have hb2 : hasKey (setBeneficio (deriveSizing today input).out
      (deriveSizing today input).invTotal) "BC" = false := by
    rw [hasKey_setBeneficio_ne _ _ (by decide),
      hasKey_deriveSizing_ne today input (by decide) (by decide) (by decide)
        (by decide) (by decide)]
    exact h2
  have hb3 : hasKey (setBeneficio (deriveSizing today input).out
      (deriveSizing today input).invTotal) "AHORRO_TOTAL" = false := by
    rw [hasKey_setBeneficio_ne _ _ (by decide),
      hasKey_deriveSizing_ne today input (by decide) (by decide) (by decide)
        (by decide) (by decide)]
    exact h3
  have hb4 : hasKey (setBeneficio (deriveSizing today input).out
      (deriveSizing today input).invTotal) "RECUPERACION_INVERSION" = false := by
    rw [hasKey_setBeneficio_ne _ _ (by decide),
      hasKey_deriveSizing_ne today input (by decide) (by decide) (by decide)
        (by decide) (by decide)]
    exact h4
  refine ⟨?_, ?_, ?_, ?_, ?_, ?_, ?_, ?_⟩
  · simp only [computeFields_server]
    rw [getv_formatPass_ne _ (by decide), getv_echoParsed_ne _ _ _ (by decide),
      getv_echoParsed_ne _ _ _ (by decide),
      getv_setPagos_ne _ _ (by decide) (by decide) (by decide) (by decide),
      getv_setFixedFinancials_TIR _ hb1]
    with_unfolding_all decide
  · simp only [computeFields_server]
    rw [getv_formatPass_ne _ (by decide), getv_echoParsed_ne _ _ _ (by decide),
      getv_echoParsed_ne _ _ _ (by decide),
      getv_setPagos_ne _ _ (by decide) (by decide) (by decide) (by decide),
      getv_setFixedFinancials_BC _ hb2]
    with_unfolding_all decide
  · simp only [computeFields_server]
    rw [getv_formatPass_AHORRO, getv_echoParsed_ne _ _ _ (by decide),
      getv_echoParsed_ne _ _ _ (by decide),
      getv_setPagos_ne _ _ (by decide) (by decide) (by decide) (by decide),
      getv_setFixedFinancials_AHORRO _ hb3]
    with_unfolding_all decide
  · simp only [computeFields_server]
    rw [getv_formatPass_ne _ (by decide), getv_echoParsed_ne _ _ _ (by decide),
      getv_echoParsed_ne _ _ _ (by decide),
      getv_setPagos_ne _ _ (by decide) (by decide) (by decide) (by decide),
      getv_setFixedFinancials_REC _ hb4]
    with_unfolding_all decide
  · simp only [computeFields_p2]
    rw [getv_echoIfParsed_ne _ _ _ (by decide), getv_echoIfParsed_ne _ _ _ (by decide),
      getv_setFixedFinancials_TIR _ hb1]
    with_unfolding_all decide
  · simp only [computeFields_p2]
    rw [getv_echoIfParsed_ne _ _ _ (by decide), getv_echoIfParsed_ne _ _ _ (by decide),
      getv_setFixedFinancials_BC _ hb2]
    with_unfolding_all decide
  · simp only [computeFields_p2]
    rw [getv_echoIfParsed_ne _ _ _ (by decide), getv_echoIfParsed_ne _ _ _ (by decide),
      getv_setFixedFinancials_AHORRO _ hb3]
    with_unfolding_all decide
  · simp only [computeFields_p2]
    rw [getv_echoIfParsed_ne _ _ _ (by decide), getv_echoIfParsed_ne _ _ _ (by decide),
      getv_setFixedFinancials_REC _ hb4]
    with_unfolding_all decide

/-- Witness for C10 at an input that fixes ENERGIA and FACTURA but none of
the four financial fields. -/
theorem C10_fixed_constants_wit :
    getv (computeFields_server "01/01/2026"
      [("ENERGIA", "500"), ("FACTURA", "400000")]) "TIR" = some "6.33%" ∧
    getv (computeFields_p2 "01/01/2026"
      [("ENERGIA", "500"), ("FACTURA", "400000")]) "AHORRO_TOTAL" =
      some "83333333" := by
  have h := C10_fixed_constants "01/01/2026"
    [("ENERGIA", "500"), ("FACTURA", "400000")] (by decide) (by decide)
    (by decide) (by decide)
  exact ⟨h.1, h.2.2.2.2.2.2.1⟩

/-! ### Claim C1 -/

/-- C1 counterexample: INVERSION_TOTAL = "1000000" is present and
non-empty in the input, yet computeFields (src/server.js) outputs
"1.000.000" for it: the final formatting pass re-parses and re-groups the
supplied string, so "input wins" fails on the formatted fields. -/
theorem C1_cx_formatting_overwrites :
    getv ([("INVERSION_TOTAL", "1000000")] : StrMap) "INVERSION_TOTAL" =
      some "1000000" ∧
    ("1000000" : String) ≠ "" ∧
    getv (computeFields_server "01/01/2026" [("INVERSION_TOTAL", "1000000")])
      "INVERSION_TOTAL" = some "1.000.000" := by
  refine ⟨rfl, by decide, ?_⟩
  with_unfolding_all decide

/-- C1 amended: in the src/server.js computeFields a field present with a
non-empty value is returned exactly as supplied for every field name
outside the final formatting pass; the ten formatted fields
(INVERSION_TOTAL, BENEFICIO_TRIBUTARIO, AHORRO_TOTAL, FACTURA, ENERGIA,
PAGO1..PAGO4, IVA_MATERIALES) are instead re-parsed and re-grouped even
when supplied.  In particular a supplied PANELES "10" is returned as
exactly "10". -/
theorem C1_amended_input_wins (today : String) (input : StrMap)
    (k v : String) (hin : getv input k = some v) (hv : v ≠ "")
    (hk : k ∉ formattedKeys) :
    getv (computeFields_server today input) k = some v := by
  have hks := hk
  simp only [formattedKeys, List.mem_cons, List.mem_singleton, not_or] at hks
  obtain ⟨n1, n2, n3, n4, n5, n6, n7, n8, n9, n10, -⟩ := hks
  simp only [computeFields_server]
  rw [getv_formatPass_ne _ hk, getv_echoParsed_ne _ _ _ (Ne.symm n4),
    getv_echoParsed_ne _ _ _ (Ne.symm n5),
    getv_setPagos_ne _ _ (Ne.symm n6) (Ne.symm n7) (Ne.symm n8) (Ne.symm n9)]
  exact getv_setFixedFinancials_of_some (getv_setBeneficio_of_some _
    (getv_deriveSizing_of_some today hin hv))

/-- Witness for C1 amended: the spec's own instance, PANELES "10". -/
theorem C1_amended_input_wins_wit :
    getv (computeFields_server "01/01/2026" [("PANELES", "10")]) "PANELES" =
      some "10" :=
  C1_amended_input_wins "01/01/2026" [("PANELES", "10")] "PANELES" "10" rfl
    (by decide) (by decide)

/-! ### Claim C5 -/

theorem getv_setIfBlank_isSome (m : StrMap) (k v : String) :
    (getv (setIfBlank m k v) k).isSome = true := by
  unfold setIfBlank
  split
  · simp
  · next h =>
    unfold isBlankAt at h
    cases heq : getv m k with
    | none => rw [heq] at h; simp at h
    | some s => simp [heq]

/-- Under a missing or unparsable ENERGIA and absent sizing fields, the
shared sizing derivation writes the empty string into POTENCIA, PANELES,
INVERSORES and INVERSION_TOTAL, and its parsed locals are NaN. -/
theorem deriveSizing_blank (today : String) (input : StrMap)
    (hE : numS input "ENERGIA" = none)
    (hP : hasKey input "POTENCIA" = false)
    (hPan : hasKey input "PANELES" = false)
    (hI : hasKey input "INVERSORES" = false)
    (hInv : hasKey input "INVERSION_TOTAL" = false) :
    getv (deriveSizing today input).out "POTENCIA" = some "" ∧
    getv (deriveSizing today input).out "PANELES" = some "" ∧
    getv (deriveSizing today input).out "INVERSORES" = some "" ∧
    getv (deriveSizing today input).out "INVERSION_TOTAL" = some "" ∧
    (deriveSizing today input).invTotal = none ∧
    (deriveSizing today input).energia = none ∧
    (getv (deriveSizing today input).out "FECHA").isSome = true := by
  simp only [deriveSizing]
  set m0 := setIfBlank input "FECHA" today with hm0
  have e0 : numS m0 "ENERGIA" = none := by
    unfold numS
    rw [hm0, getv_setIfBlank_ne _ _ (by decide)]
    exact hE
  rw [e0]
  set m1 := setIfAbsent m0 "POTENCIA" "" with hm1
  have k1 : getv m1 "POTENCIA" = some "" := by
    rw [hm1]
    refine getv_setIfAbsent_self _ ?_
    rw [hm0, hasKey_setIfBlank_ne _ _ (by decide)]
    exact hP
  have p1 : numS m1 "POTENCIA" = none := by
    unfold numS
    rw [k1]
    rfl
  rw [p1]
  set m2 := setIfAbsent m1 "PANELES" "" with hm2
  have k2 : getv m2 "PANELES" = some "" := by
    rw [hm2]
    refine getv_setIfAbsent_self _ ?_
    rw [hm1, hasKey_setIfAbsent_ne _ _ (by decide), hm0,
      hasKey_setIfBlank_ne _ _ (by decide)]
    exact hPan
  set m3 := setIfAbsent m2 "INVERSORES" "" with hm3
  have k3 : getv m3 "INVERSORES" = some "" := by
    rw [hm3]
    refine getv_setIfAbsent_self _ ?_
    rw [hm2, hasKey_setIfAbsent_ne _ _ (by decide), hm1,
      hasKey_setIfAbsent_ne _ _ (by decide), hm0,
      hasKey_setIfBlank_ne _ _ (by decide)]
    exact hI
  set m4 := setIfAbsent m3 "INVERSION_TOTAL" "" with hm4
  have k4 : getv m4 "INVERSION_TOTAL" = some "" := by
    rw [hm4]
    refine getv_setIfAbsent_self _ ?_
    rw [hm3, hasKey_setIfAbsent_ne _ _ (by decide), hm2,
      hasKey_setIfAbsent_ne _ _ (by decide), hm1,
      hasKey_setIfAbsent_ne _ _ (by decide), hm0,
      hasKey_setIfBlank_ne _ _ (by decide)]
    exact hInv
  have i4 : numS m4 "INVERSION_TOTAL" = none := by
    unfold numS
    rw [k4]
    rfl
  refine ⟨?_, ?_, ?_, k4, i4, rfl, ?_⟩
  · rw [hm4, getv_setIfAbsent_ne _ _ (by decide), hm3,
      getv_setIfAbsent_ne _ _ (by decide), hm2,
      getv_setIfAbsent_ne _ _ (by decide)]
    exact k1
  · rw [hm4, getv_setIfAbsent_ne _ _ (by decide), hm3,
      getv_setIfAbsent_ne _ _ (by decide)]
    exact k2
  · rw [hm4, getv_setIfAbsent_ne _ _ (by decide)]
    exact k3
  · rw [hm4, getv_setIfAbsent_ne _ _ (by decide), hm3,
      getv_setIfAbsent_ne _ _ (by decide), hm2,
      getv_setIfAbsent_ne _ _ (by decide), hm1,
      getv_setIfAbsent_ne _ _ (by decide), hm0]
    exact getv_setIfBlank_isSome input "FECHA" today

/-- C5: computeFields degrades silently instead of raising: with ENERGIA
missing or unparsable (and the sizing fields not supplied), the derived
POTENCIA, PANELES, INVERSORES and INVERSION_TOTAL fields are the empty
string in both the src/unnamed/part_001 and src/server.js variants, while
independent fields are still computed: FECHA is always populated, and
part_001 still writes its TIR and RECUPERACION_INVERSION fields.  The
embedded computeFields functions are total, so they return a mapping on
every input. -/
theorem C5_silent_degradation (today : String) (input : StrMap)
    (hE : numS input "ENERGIA" = none)
    (hP : hasKey input "POTENCIA" = false)
    (hPan : hasKey input "PANELES" = false)
    (hI : hasKey input "INVERSORES" = false)
    (hInv : hasKey input "INVERSION_TOTAL" = false) :
    getv (computeFields_p1 today input) "POTENCIA" = some "" ∧
    getv (computeFields_p1 today input) "PANELES" = some "" ∧
    getv (computeFields_p1 today input) "INVERSORES" = some "" ∧
    getv (computeFields_p1 today input) "INVERSION_TOTAL" = some "" ∧
    (getv (computeFields_p1 today input) "FECHA").isSome = true ∧
    (getv (computeFields_p1 today input) "TIR").isSome = true ∧
    (getv (computeFields_p1 today input) "RECUPERACION_INVERSION").isSome = true ∧
    getv (computeFields_server today input) "POTENCIA" = some "" ∧
    getv (computeFields_server today input) "PANELES" = some "" ∧
    getv (computeFields_server today input) "INVERSORES" = some "" ∧
    getv (computeFields_server today input) "INVERSION_TOTAL" = some "" ∧
    (getv (computeFields_server today input) "FECHA").isSome = true := by
  obtain ⟨b1, b2, b3, b4, _, _, b7⟩ :=
    deriveSizing_blank today input hE hP hPan hI hInv
  refine ⟨?_, ?_, ?_, ?_, ?_, ?_, ?_, ?_, ?_, ?_, ?_, ?_⟩
  · simp only [computeFields_p1, p1Derive]
    rw [getv_formatPass_ne _ (by decide), getv_echoParsed_ne _ _ _ (by decide),
      getv_echoParsed_ne _ _ _ (by decide), getv_setv_ne _ _ (by decide),
      getv_setv_ne _ _ (by decide), getv_setv_ne _ _ (by decide),
      getv_setv_ne _ _ (by decide), getv_setIfAbsent_ne _ _ (by decide),
      getv_setBeneficio_ne _ _ (by decide), getv_setv_ne _ _ (by decide)]
    exact b1
  · simp only [computeFields_p1, p1Derive]
    rw [getv_formatPass_ne _ (by decide), getv_echoParsed_ne _ _ _ (by decide),
      getv_echoParsed_ne _ _ _ (by decide), getv_setv_ne _ _ (by decide),
      getv_setv_ne _ _ (by decide), getv_setv_ne _ _ (by decide),
      getv_setv_ne _ _ (by decide), getv_setIfAbsent_ne _ _ (by decide),
      getv_setBeneficio_ne _ _ (by decide), getv_setv_ne _ _ (by decide)]
    exact b2
  · simp only [computeFields_p1, p1Derive]
    rw [getv_formatPass_ne _ (by decide), getv_echoParsed_ne _ _ _ (by decide),
      getv_echoParsed_ne _ _ _ (by decide), getv_setv_ne _ _ (by decide),
      getv_setv_ne _ _ (by decide), getv_setv_ne _ _ (by decide),
      getv_setv_ne _ _ (by decide), getv_setIfAbsent_ne _ _ (by decide),
      getv_setBeneficio_ne _ _ (by decide), getv_setv_ne _ _ (by decide)]
    exact b3
  · simp only [computeFields_p1, p1Derive]
    rw [getv_formatPass_INVTOT, getv_echoParsed_ne _ _ _ (by decide),
      getv_echoParsed_ne _ _ _ (by decide), getv_setv_ne _ _ (by decide),
      getv_setv_ne _ _ (by decide), getv_setv_ne _ _ (by decide),
      getv_setv_ne _ _ (by decide), getv_setIfAbsent_ne _ _ (by decide),
      getv_setBeneficio_ne _ _ (by decide), getv_setv_ne _ _ (by decide), b4]
    with_unfolding_all decide
  · simp only [computeFields_p1, p1Derive]
    rw [getv_formatPass_ne _ (by decide), getv_echoParsed_ne _ _ _ (by decide),
      getv_echoParsed_ne _ _ _ (by decide), getv_setv_ne _ _ (by decide),
      getv_setv_ne _ _ (by decide), getv_setv_ne _ _ (by decide),
      getv_setv_ne _ _ (by decide), getv_setIfAbsent_ne _ _ (by decide),
      getv_setBeneficio_ne _ _ (by decide), getv_setv_ne _ _ (by decide)]
    exact b7
  · simp only [computeFields_p1, p1Derive]
    rw [getv_formatPass_ne _ (by decide), getv_echoParsed_ne _ _ _ (by decide),
      getv_echoParsed_ne _ _ _ (by decide), getv_setv_ne _ _ (by decide),
      getv_setv_ne _ _ (by decide), getv_setv_self]
    rfl
  · simp only [computeFields_p1, p1Derive]
    rw [getv_formatPass_ne _ (by decide), getv_echoParsed_ne _ _ _ (by decide),
      getv_echoParsed_ne _ _ _ (by decide), getv_setv_ne _ _ (by decide),
      getv_setv_self]
    rfl
  · simp only [computeFields_server]
    rw [getv_formatPass_ne _ (by decide), getv_echoParsed_ne _ _ _ (by decide),
      getv_echoParsed_ne _ _ _ (by decide),
      getv_setPagos_ne _ _ (by decide) (by decide) (by decide) (by decide),
      getv_setFixedFinancials_ne _ (by decide) (by decide) (by decide) (by decide),
      getv_setBeneficio_ne _ _ (by decide)]
    exact b1
  · simp only [computeFields_server]
    rw [getv_formatPass_ne _ (by decide), getv_echoParsed_ne _ _ _ (by decide),
      getv_echoParsed_ne _ _ _ (by decide),
      getv_setPagos_ne _ _ (by decide) (by decide) (by decide) (by decide),
      getv_setFixedFinancials_ne _ (by decide) (by decide) (by decide) (by decide),
      getv_setBeneficio_ne _ _ (by decide)]
    exact b2
  · simp only [computeFields_server]
    rw [getv_formatPass_ne _ (by decide), getv_echoParsed_ne _ _ _ (by decide),
      getv_echoParsed_ne _ _ _ (by decide),
      getv_setPagos_ne _ _ (by decide) (by decide) (by decide) (by decide),
      getv_setFixedFinancials_ne _ (by decide) (by decide) (by decide) (by decide),
      getv_setBeneficio_ne _ _ (by decide)]
    exact b3
  · simp only [computeFields_server]
    rw [getv_formatPass_INVTOT, getv_echoParsed_ne _ _ _ (by decide),
      getv_echoParsed_ne _ _ _ (by decide),
      getv_setPagos_ne _ _ (by decide) (by decide) (by decide) (by decide),
      getv_setFixedFinancials_ne _ (by decide) (by decide) (by decide) (by decide),
      getv_setBeneficio_ne _ _ (by decide), b4]
    with_unfolding_all decide
  · simp only [computeFields_server]
    rw [getv_formatPass_ne _ (by decide), getv_echoParsed_ne _ _ _ (by decide),
      getv_echoParsed_ne _ _ _ (by decide),
      getv_setPagos_ne _ _ (by decide) (by decide) (by decide) (by decide),
      getv_setFixedFinancials_ne _ (by decide) (by decide) (by decide) (by decide),
      getv_setBeneficio_ne _ _ (by decide)]
    exact b7

/-- Witness for C5 at the empty input mapping. -/
theorem C5_silent_degradation_wit :
    getv (computeFields_p1 "01/01/2026" []) "POTENCIA" = some "" ∧
    getv (computeFields_server "01/01/2026" []) "INVERSION_TOTAL" = some "" ∧
    (getv (computeFields_p1 "01/01/2026" []) "TIR").isSome = true := by
  have h := C5_silent_degradation "01/01/2026" [] rfl rfl rfl rfl rfl
  exact ⟨h.1, h.2.2.2.2.2.2.2.2.2.2.1, h.2.2.2.2.2.1⟩

end SolarSky
